import Mathlib

/-!
Shallow embedding of the track-resolution and audio-acquisition pipeline of
the `mcp-youtube-music` server, together with proofs about it.

The repository contains two revisions of the tool module:
  * `src/tools/youtube.ts` — its `playTrack` is the download variant, and the
    lines marked `// Corrected` read `fileLine.split('Destination:')?.trim()`,
    `path.join(dir, filesWithStats.file)` and `const topResult = searchResults`
    (the index accesses `[1]` / `[0]` are missing);
  * the unnamed module (part_001) — its `playTrack` is the browser-open
    variant, and the same lines carry the index accesses.
Definitions embedding the first revision carry a `T` suffix; definitions
without a suffix embed the unnamed revision.  Both are modelled faithfully,
including the JavaScript dynamic-type failures the first revision runs into.

String primitives of the runtime (`split`, `trim`, `endsWith`, `includes`,
`replace`, stable `Array.prototype.sort`) are embedded as structurally
recursive functions on character lists so that every definition evaluates
inside the kernel.
-/

deriving instance DecidableEq for Except

namespace YtMusic

/-! ## JavaScript string and array primitives -/

/-- Whitespace recognised by `String.prototype.trim` (the ASCII cases). -/
def isWsChar (c : Char) : Bool :=
  c = ' ' || c = '\t' || c = '\n' || c = '\r'

/-- `String.prototype.trim`: drop whitespace from both ends. -/
def jsTrim (s : String) : String :=
  String.mk (((s.data.dropWhile isWsChar).reverse.dropWhile isWsChar).reverse)

/-- Does `sub` occur inside `l`?  Character-list core of `String.prototype.includes`. -/
def hasSubList (sub : List Char) : List Char → Bool
  | [] => sub.isEmpty
  | c :: rest => sub.isPrefixOf (c :: rest) || hasSubList sub rest

/-- `s.includes(sub)`. -/
def jsIncludes (s sub : String) : Bool :=
  hasSubList sub.data s.data

/-- Character-list core of `String.prototype.split` on a non-empty separator:
split at every (non-overlapping, leftmost) occurrence.  The `fuel` argument
only makes the recursion structural; with `fuel ≥ l.length` it never runs out,
because every step consumes at least one character. -/
def splitOnFuel (sep : List Char) : Nat → List Char → List (List Char)
  | _, [] => [[]]
  | 0, l => [l]
  | fuel + 1, c :: rest =>
    if sep.isPrefixOf (c :: rest) && !sep.isEmpty then
      [] :: splitOnFuel sep fuel ((c :: rest).drop sep.length)
    else
      match splitOnFuel sep fuel rest with
      | seg :: segs => (c :: seg) :: segs
      | [] => [[c]]

/-- `s.split(sep)` for a non-empty separator string. -/
def jsSplit (s sep : String) : List String :=
  (splitOnFuel sep.data s.data.length s.data).map String.mk

/-- `s.endsWith(sfx)`. -/
def jsEndsWith (s sfx : String) : Bool :=
  sfx.data.reverse.isPrefixOf s.data.reverse

/-- `s.replace(/'/g, repl)`: the regular expression matches one single-quote
character, so every such character is replaced by `repl`. -/
def replaceQuotes (repl : String) (s : String) : String :=
  String.mk (s.data.flatMap (fun c => if c = '\'' then repl.data else [c]))

/-- Insert into a sorted list, keeping `x` in front of later elements that
compare equal: the inner step of a stable comparator sort. -/
def sortInsert (cmp : α → α → Int) (x : α) : List α → List α
  | [] => [x]
  | y :: ys => if cmp x y ≤ 0 then x :: y :: ys else y :: sortInsert cmp x ys

/-- `Array.prototype.sort(cmp)`: stable (ES2019) and consistent with the
comparator, embedded as a stable insertion sort. -/
def jsSortBy (cmp : α → α → Int) : List α → List α
  | [] => []
  | x :: xs => sortInsert cmp x (jsSortBy cmp xs)

/-- The JavaScript truthiness test `!x` on a `string | undefined` value:
true for `undefined` and for the empty string. -/
def jsFalsyOptStr : Option String → Bool
  | none => true
  | some s => s == ""

/-- `a || b` on a `string | undefined` left operand: the default is taken
when the value is `undefined` or the empty string. -/
def jsOrStr : Option String → String → String
  | none, d => d
  | some s, d => if s == "" then d else s

/-! ## Errors, process results and the data model -/

/-- Error codes of the protocol SDK; the module only ever uses `InternalError`. -/
inductive ErrorCode where
  | internalError
deriving DecidableEq, Repr

/-- A thrown JavaScript value: an `McpError`, a plain `Error`, a `TypeError`,
or some non-`Error` value. -/
inductive JsError where
  | mcpError (code : ErrorCode) (message : String)
  | jsPlainError (message : String)
  | jsTypeError (message : String)
  | thrownValue
deriving DecidableEq, Repr

/-- `e instanceof McpError`. -/
def isMcpError : JsError → Bool
  | .mcpError _ _ => true
  | _ => false

/-- The pattern `e instanceof Error ? e.message : dflt` (every `Error`
subclass carries a message; a thrown non-`Error` value does not). -/
def messageOrDefault (e : JsError) (dflt : String) : String :=
  match e with
  | .mcpError _ m => m
  | .jsPlainError m => m
  | .jsTypeError m => m
  | .thrownValue => dflt

/-- Captured output of one external command (`promisify(exec)` resolution). -/
structure ExecOut where
  stdout : String
  stderr : String
deriving DecidableEq, Repr

/-- The command runner: `execPromise` applied to a shell command string;
a non-zero exit or spawn failure rejects with an error. -/
def ExecFn := String → Except JsError ExecOut

/-- The file-system calls used by the fallback resolution:
`fs.mkdir(dir, { recursive: true })`, `fs.readdir(dir)`, and
`fs.stat(p).mtimeMs` (modelled as integral milliseconds). -/
structure FsEnv where
  mkdir : String → Except JsError Unit
  readdir : String → List String
  statMtimeMs : String → Int

/-- The `id` object of an upstream search item; the video key may be absent. -/
structure VideoIdObj where
  videoId : Option String
deriving DecidableEq, Repr

/-- The `snippet` object of an upstream search item. -/
structure SnippetObj where
  title : Option String
deriving DecidableEq, Repr

/-- One upstream search result item (the fields the module reads). -/
structure YouTubeSearchResultItem where
  id : Option VideoIdObj
  snippet : Option SnippetObj
deriving DecidableEq, Repr

/-- The upstream search response body. -/
structure YouTubeSearchResults where
  items : Option (List YouTubeSearchResultItem)
deriving DecidableEq, Repr

/-- The query parameters sent to the search API endpoint. -/
structure SearchRequest where
  key : String
  part : String
  maxResults : Nat
  type : String
  q : String
deriving DecidableEq, Repr

/-- The upstream API as seen through `ofetch`: it either yields a response
body (possibly `null`) or throws. -/
def UpstreamApi := SearchRequest → Except JsError (Option YouTubeSearchResults)

/-- One text segment of a tool response. -/
structure TextContent where
  type : String
  text : String
deriving DecidableEq, Repr

/-- The tool-response envelope; an absent `isError` field is `false`. -/
structure ToolResponse where
  content : List TextContent
  isError : Bool
deriving DecidableEq, Repr

/-- Build a `{ type: 'text', text: s }` segment. -/
def textContent (s : String) : TextContent :=
  { type := "text", text := s }

/-! ## QueryResolver: `searchYoutubeVideo` -/

/-- `searchYoutubeVideo(apiKey, query, maxResults)`: issue the search request
with `part: 'snippet'` and `type: 'video'`, return `searchResults?.items ?? []`
on success and wrap any failure as
`McpError(InternalError, 'YouTube API search failed: ...')`. -/
def searchYoutubeVideo (api : UpstreamApi) (apiKey query : String)
    (maxResults : Nat) : Except JsError (List YouTubeSearchResultItem) :=
  match api { key := apiKey, part := "snippet", maxResults := maxResults,
              type := "video", q := query } with
  | .ok resp => .ok ((resp.bind (fun r => r.items)).getD [])
  | .error e =>
      .error (.mcpError .internalError ("YouTube API search failed: " ++
        messageOrDefault e "An unknown error occurred during YouTube search"))

/-! ## JSON serialization used by `searchTrack`

`JSON.stringify(searchResults, null, 2)` restricted to the modelled fields of
the items: two-space indentation, objects omit absent properties. -/

/-- JSON string escaping for the characters that can occur here. -/
def jsonEscape : List Char → List Char
  | [] => []
  | c :: rest =>
    (if c = '"' then ['\\', '"']
     else if c = '\\' then ['\\', '\\']
     else if c = '\n' then ['\\', 'n']
     else [c]) ++ jsonEscape rest

/-- A JSON string literal. -/
def jsonStr (s : String) : String :=
  "\"" ++ String.mk (jsonEscape s.data) ++ "\""

/-- Join strings with a separator. -/
def joinWith (sep : String) : List String → String
  | [] => ""
  | [x] => x
  | x :: y :: xs => x ++ sep ++ joinWith sep (y :: xs)

/-- A JSON object whose opening brace sits at indentation `ind`. -/
def jsonObj (ind : String) (fields : List (String × String)) : String :=
  match fields with
  | [] => "\x7b\x7d"
  | _ => "\x7b\n" ++
      joinWith ",\n"
        (fields.map (fun f => ind ++ "  " ++ jsonStr f.1 ++ ": " ++ f.2)) ++
      "\n" ++ ind ++ "\x7d"

/-- Serialize an `id` object. -/
def videoIdObjJson (ind : String) (o : VideoIdObj) : String :=
  jsonObj ind (match o.videoId with
    | some v => [("videoId", jsonStr v)]
    | none => [])

/-- Serialize a `snippet` object. -/
def snippetObjJson (ind : String) (o : SnippetObj) : String :=
  jsonObj ind (match o.title with
    | some t => [("title", jsonStr t)]
    | none => [])

/-- Serialize one search result item. -/
def itemJson (ind : String) (it : YouTubeSearchResultItem) : String :=
  jsonObj ind
    ((match it.id with
      | some o => [("id", videoIdObjJson (ind ++ "  ") o)]
      | none => []) ++
     (match it.snippet with
      | some o => [("snippet", snippetObjJson (ind ++ "  ") o)]
      | none => []))

/-- `JSON.stringify(items, null, 2)`; in particular the empty list renders as
`[]`. -/
def jsonStringifyItems (items : List YouTubeSearchResultItem) : String :=
  match items with
  | [] => "[]"
  | _ => "[\n" ++
      joinWith ",\n" (items.map (fun it => "  " ++ itemJson "  " it)) ++ "\n]"

/-! ## PlatformLauncher: `openUrlInBrowser` -/

/-- The AppleScript text interpolated on the macOS branch. -/
def appleScriptFor (url : String) : String :=
  "tell application \"Google Chrome\" to open location \"" ++ url ++ "\""

/-- The replacement string of `appleScript.replace(/'/g, "'\''")`.  In the
JavaScript source the backslash escapes the quote inside the double-quoted
string literal, so the replacement denotes the three characters quote, quote,
quote — not the POSIX idiom quote, backslash, quote, quote. -/
def quoteReplacement : String := "'''"

/-- The shell command built for the given platform and URL: `osascript` on
`darwin`, `start` on `win32`, `xdg-open` otherwise. -/
def buildOpenCommand (platform url : String) : String :=
  if platform = "darwin" then
    "osascript -e '" ++ replaceQuotes quoteReplacement (appleScriptFor url) ++ "'"
  else if platform = "win32" then
    "start \"\" \"" ++ url ++ "\""
  else
    "xdg-open \"" ++ url ++ "\""

/-- `openUrlInBrowser(url, platform)`: run the platform command (standard
error is only logged); an execution failure is wrapped as
`McpError(InternalError, 'Failed to open URL in browser: ...')`. -/
def openUrlInBrowser (exec : ExecFn) (platform url : String) :
    Except JsError Unit :=
  match exec (buildOpenCommand platform url) with
  | .ok _ => .ok ()
  | .error e =>
      .error (.mcpError .internalError ("Failed to open URL in browser: " ++
        messageOrDefault e "Unknown execution error"))

/-! ## AudioAcquirer: `downloadYoutubeAudio` -/

/-- `os.tmpdir()`, modelled as the conventional POSIX location. -/
def osTmpdir : String := "/tmp"

/-- `path.join(a, b)` for the already-normalized paths used here. -/
def pathJoin (a b : String) : String := a ++ "/" ++ b

/-- `const dir = outputDir || path.join(os.tmpdir(), 'youtube-audio')`. -/
def resolvedOutputDir (outputDir : Option String) : String :=
  jsOrStr outputDir (pathJoin osTmpdir "youtube-audio")

/-- The downloader invocation
`yt-dlp -x --audio-format mp3 -o "<dir>/%(title)s.%(ext)s" "<watch url>"`. -/
def ytDlpCommand (dir videoId : String) : String :=
  "yt-dlp -x --audio-format mp3 -o \"" ++ pathJoin dir "%(title)s.%(ext)s" ++
    "\" \"" ++ "https://www.youtube.com/watch?v=" ++ videoId ++ "\""

/-- The marker scanned for in the downloader's standard output. -/
def extractionMarker : String := "[ExtractAudio] Destination:"

/-- The catch-all of `downloadYoutubeAudio`: any error thrown inside the try
block is re-thrown as
`McpError(InternalError, 'YouTube audio download failed: ...')`. -/
def wrapDownloadError (e : JsError) : JsError :=
  .mcpError .internalError ("YouTube audio download failed: " ++
    messageOrDefault e "Unknown error during download")

/-- `downloadYoutubeAudio` of the unnamed revision (part_001 lines 77-126):
run the downloader, scan stdout for the extraction marker and return the
trimmed text after `Destination:`; otherwise fall back to the most recently
modified `.mp3` file of the directory; if there is none, throw
`Error('Could not determine downloaded file path')`.  Every failure inside
the try block is wrapped by `wrapDownloadError`. -/
def downloadYoutubeAudio (exec : ExecFn) (fsE : FsEnv) (videoId : String)
    (outputDir : Option String) : Except JsError String :=
  let dir := resolvedOutputDir outputDir
  match fsE.mkdir dir with
  | .error e => .error e
  | .ok _ =>
    match exec (ytDlpCommand dir videoId) with
    | .error e => .error (wrapDownloadError e)
    | .ok out =>
      let lines := jsSplit out.stdout "\n"
      let fileLine := lines.find? (fun line => jsIncludes line extractionMarker)
      let filePath : Option String :=
        match fileLine with
        | some l => ((jsSplit l "Destination:")[1]?).map jsTrim
        | none => none
      if jsFalsyOptStr filePath then
        let mp3Files := (fsE.readdir dir).filter (fun f => jsEndsWith f ".mp3")
        match mp3Files with
        | [] =>
          .error (wrapDownloadError
            (JsError.jsPlainError "Could not determine downloaded file path"))
        | _ :: _ =>
          let filesWithStats :=
            mp3Files.map (fun file => (file, fsE.statMtimeMs (pathJoin dir file)))
          match jsSortBy (fun a b => b.2 - a.2) filesWithStats with
          | top :: _ => .ok (pathJoin dir top.1)
          | [] =>
            .error (wrapDownloadError (JsError.jsTypeError
              "Cannot read properties of undefined"))
      else .ok (filePath.getD "")

/-- `downloadYoutubeAudio` of the `src/tools/youtube.ts` revision, whose
resolution lines are marked `// Corrected` but are missing the index
accesses.  When a marker line is found,
`filePath = fileLine.split('Destination:')?.trim()` calls `trim` on the array
returned by `split`, which raises a `TypeError`; in the fallback,
`path.join(dir, filesWithStats.file)` reads `.file` of the array (undefined)
and `path.join` raises a `TypeError` on it.  Both are caught by the try/catch
and wrapped by `wrapDownloadError`. -/
def downloadYoutubeAudioT (exec : ExecFn) (fsE : FsEnv) (videoId : String)
    (outputDir : Option String) : Except JsError String :=
  let dir := resolvedOutputDir outputDir
  match fsE.mkdir dir with
  | .error e => .error e
  | .ok _ =>
    match exec (ytDlpCommand dir videoId) with
    | .error e => .error (wrapDownloadError e)
    | .ok out =>
      let lines := jsSplit out.stdout "\n"
      let fileLine := lines.find? (fun line => jsIncludes line extractionMarker)
      match fileLine with
      | some _ =>
        .error (wrapDownloadError (JsError.jsTypeError
          "fileLine.split(...).trim is not a function"))
      | none =>
        let mp3Files := (fsE.readdir dir).filter (fun f => jsEndsWith f ".mp3")
        match mp3Files with
        | [] =>
          .error (wrapDownloadError
            (JsError.jsPlainError "Could not determine downloaded file path"))
        | _ :: _ =>
          let filesWithStats :=
            mp3Files.map (fun file => (file, fsE.statMtimeMs (pathJoin dir file)))
          let _sorted := jsSortBy (fun a b => b.2 - a.2) filesWithStats
          .error (wrapDownloadError (JsError.jsTypeError
            "The \"path\" argument must be of type string. Received undefined"))

/-! ## TrackService facade: the three tool handlers -/

/-- `topResult?.id?.videoId`. -/
def itemVideoId (it : YouTubeSearchResultItem) : Option String :=
  it.id.bind (fun o => o.videoId)

/-- `topResult?.snippet?.title`. -/
def itemTitle (it : YouTubeSearchResultItem) : Option String :=
  it.snippet.bind (fun o => o.title)

/-- JS property access `.id` on an array value (`const topResult =
searchResults` binds the whole array in the `src/tools/youtube.ts` revision):
arrays have no `id` property, so `topResult?.id?.videoId` is `undefined`. -/
def arrayIdVideoId (_ : List YouTubeSearchResultItem) : Option String := none

/-- JS property access `.snippet` on an array value: `undefined`, so
`topResult?.snippet?.title` is `undefined`. -/
def arraySnippetTitle (_ : List YouTubeSearchResultItem) : Option String := none

/-- The `No search results found for: ...` response (no error flag). -/
def noResultsResponse (trackName : String) : ToolResponse :=
  { content := [textContent ("No search results found for: " ++ trackName)],
    isError := false }

/-- The catch block shared by `playTrack` and `downloadTrack`: an `McpError`
with code `InternalError` is re-thrown; any other error is rendered as a soft
response `prefixText ++ message` with the error flag set, where the message is
`e.message` for an `Error` and `unexpectedMsg` otherwise. -/
def facadeCatch (prefixText unexpectedMsg : String) (e : JsError) :
    Except JsError ToolResponse :=
  match e with
  | .mcpError code m =>
      if code = .internalError then .error (.mcpError code m)
      else .ok { content := [textContent (prefixText ++ m)], isError := true }
  | .jsPlainError m =>
      .ok { content := [textContent (prefixText ++ m)], isError := true }
  | .jsTypeError m =>
      .ok { content := [textContent (prefixText ++ m)], isError := true }
  | .thrownValue =>
      .ok { content := [textContent (prefixText ++ unexpectedMsg)],
            isError := true }

/-- `searchTrack(trackName)` (identical in both revisions): search with
`maxResults = 5` and return the JSON of the result list; any error becomes a
soft response (this handler never re-throws). -/
def searchTrack (api : UpstreamApi) (apiKey trackName : String) :
    Except JsError ToolResponse :=
  match searchYoutubeVideo api apiKey trackName 5 with
  | .ok searchResults =>
      .ok { content := [textContent (jsonStringifyItems searchResults)],
            isError := false }
  | .error e =>
      let message :=
        if isMcpError e then messageOrDefault e ""
        else "An unexpected error occurred during search."
      .ok { content := [textContent ("Error searching YouTube: " ++ message)],
            isError := true }

/-- `playTrack(trackName)` of the unnamed revision (browser-open variant):
search with `maxResults = 1`; empty results give the no-results response; a
missing or empty video id throws the resolution `McpError`, which the catch
block re-raises; otherwise open `https://music.youtube.com/watch?v=<id>` in
the browser and confirm. -/
def playTrack (api : UpstreamApi) (exec : ExecFn) (platform : String)
    (apiKey trackName : String) : Except JsError ToolResponse :=
  match searchYoutubeVideo api apiKey trackName 1 with
  | .error e =>
      facadeCatch "Error playing track: "
        "An unexpected error occurred during track playback." e
  | .ok searchResults =>
    match searchResults with
    | [] => .ok (noResultsResponse trackName)
    | topResult :: _ =>
      let videoId := itemVideoId topResult
      let title := (itemTitle topResult).getD "Unknown Title"
      if jsFalsyOptStr videoId then
        facadeCatch "Error playing track: "
          "An unexpected error occurred during track playback."
          (.mcpError .internalError
            "Could not extract video ID from YouTube search result.")
      else
        let youtubeMusicUrl :=
          "https://music.youtube.com/watch?v=" ++ videoId.getD ""
        match openUrlInBrowser exec platform youtubeMusicUrl with
        | .error e =>
            facadeCatch "Error playing track: "
              "An unexpected error occurred during track playback." e
        | .ok _ =>
            .ok { content := [textContent ("Attempting to play in browser: " ++
                    title ++ " (" ++ youtubeMusicUrl ++ ")")],
                  isError := false }

/-- `downloadTrack(trackName)` of the unnamed revision: same resolution as
`playTrack`, then acquire the audio (default output directory) and report the
title and file path. -/
def downloadTrack (api : UpstreamApi) (exec : ExecFn) (fsE : FsEnv)
    (apiKey trackName : String) : Except JsError ToolResponse :=
  match searchYoutubeVideo api apiKey trackName 1 with
  | .error e =>
      facadeCatch "Error downloading track: "
        "An unexpected error occurred during track download." e
  | .ok searchResults =>
    match searchResults with
    | [] => .ok (noResultsResponse trackName)
    | topResult :: _ =>
      let videoId := itemVideoId topResult
      let title := (itemTitle topResult).getD "Unknown Title"
      if jsFalsyOptStr videoId then
        facadeCatch "Error downloading track: "
          "An unexpected error occurred during track download."
          (.mcpError .internalError
            "Could not extract video ID from YouTube search result.")
      else
        match downloadYoutubeAudio exec fsE (videoId.getD "") none with
        | .error e =>
            facadeCatch "Error downloading track: "
              "An unexpected error occurred during track download." e
        | .ok filePath =>
            .ok { content := [textContent ("Downloaded audio: " ++ title),
                              textContent ("File path: " ++ filePath)],
                  isError := false }

/-- `playTrack(trackName)` of the `src/tools/youtube.ts` revision (download
variant).  `const topResult = searchResults` (line 145, marked `// Corrected`)
binds the whole array, so the id and title reads go through `arrayIdVideoId`
and `arraySnippetTitle` and the resolution check always throws. -/
def playTrackT (api : UpstreamApi) (exec : ExecFn) (fsE : FsEnv)
    (apiKey trackName : String) : Except JsError ToolResponse :=
  match searchYoutubeVideo api apiKey trackName 1 with
  | .error e =>
      facadeCatch "Error downloading track for playback: "
        "An unexpected error occurred during track download for playback." e
  | .ok searchResults =>
    match searchResults with
    | [] => .ok (noResultsResponse trackName)
    | _ :: _ =>
      let videoId := arrayIdVideoId searchResults
      let title := (arraySnippetTitle searchResults).getD "Unknown Title"
      if jsFalsyOptStr videoId then
        facadeCatch "Error downloading track for playback: "
          "An unexpected error occurred during track download for playback."
          (.mcpError .internalError
            "Could not extract video ID from YouTube search result.")
      else
        match downloadYoutubeAudioT exec fsE (videoId.getD "") none with
        | .error e =>
            facadeCatch "Error downloading track for playback: "
              "An unexpected error occurred during track download for playback." e
        | .ok filePath =>
            .ok { content :=
                    [textContent ("Downloaded audio for playback: " ++ title),
                     textContent ("File path: " ++ filePath)],
                  isError := false }

/-- `downloadTrack(trackName)` of the `src/tools/youtube.ts` revision, with
the same `const topResult = searchResults` slip (line 198). -/
def downloadTrackT (api : UpstreamApi) (exec : ExecFn) (fsE : FsEnv)
    (apiKey trackName : String) : Except JsError ToolResponse :=
  match searchYoutubeVideo api apiKey trackName 1 with
  | .error e =>
      facadeCatch "Error downloading track: "
        "An unexpected error occurred during track download." e
  | .ok searchResults =>
    match searchResults with
    | [] => .ok (noResultsResponse trackName)
    | _ :: _ =>
      let videoId := arrayIdVideoId searchResults
      let title := (arraySnippetTitle searchResults).getD "Unknown Title"
      if jsFalsyOptStr videoId then
        facadeCatch "Error downloading track: "
          "An unexpected error occurred during track download."
          (.mcpError .internalError
            "Could not extract video ID from YouTube search result.")
      else
        match downloadYoutubeAudioT exec fsE (videoId.getD "") none with
        | .error e =>
            facadeCatch "Error downloading track: "
              "An unexpected error occurred during track download." e
        | .ok filePath =>
            .ok { content := [textContent ("Downloaded audio: " ++ title),
                              textContent ("File path: " ++ filePath)],
                  isError := false }

/-! ## POSIX shell quoting

A scanner deciding whether a command string has balanced quoting: outside
quotes a backslash escapes the next character, a single quote opens a region
where every character is literal, a double quote opens a region where a
backslash escapes the next character.  A command is well formed when the scan
ends outside any quoted region (and no escape dangles at the end). -/

/-- The quoting state of the scanner. -/
inductive QuoteState where
  | outside
  | inSingle
  | inDouble
deriving DecidableEq, Repr

/-- Scan a command, returning `true` when quoting is balanced. -/
def shellQuoteScan : QuoteState → List Char → Bool
  | .outside, [] => true
  | .inSingle, [] => false
  | .inDouble, [] => false
  | .outside, c :: rest =>
    if c = '\\' then
      match rest with
      | [] => false
      | _ :: r => shellQuoteScan .outside r
    else if c = '\'' then shellQuoteScan .inSingle rest
    else if c = '"' then shellQuoteScan .inDouble rest
    else shellQuoteScan .outside rest
  | .inSingle, c :: rest =>
    if c = '\'' then shellQuoteScan .outside rest
    else shellQuoteScan .inSingle rest
  | .inDouble, c :: rest =>
    if c = '\\' then
      match rest with
      | [] => false
      | _ :: r => shellQuoteScan .inDouble r
    else if c = '"' then shellQuoteScan .outside rest
    else shellQuoteScan .inDouble rest

/-- Is the shell command's quoting balanced? -/
def shellQuotesBalanced (s : String) : Bool :=
  shellQuoteScan .outside s.data

/-- Modelled from the spec: the mandated sanitation replaces every single
quote of the scripted argument by the POSIX escape idiom — close the quoted
region, emit a backslash-escaped quote, reopen the region (`'\''`, four
characters). -/
def specQuoteEscape : String := "'\\''"

/-- Modelled from the spec: the macOS command built with the mandated
escaping. -/
def specDarwinCommand (url : String) : String :=
  "osascript -e '" ++ replaceQuotes specQuoteEscape (appleScriptFor url) ++ "'"

/-! ## Concrete environments used by theorems and witnesses -/

/-- Downloader run whose output carries a marker line. -/
def execMarkerOk : ExecFn := fun _ =>
  .ok { stdout :=
          "[youtube] abc123\n[ExtractAudio] Destination: /tmp/youtube-audio/song.mp3\n",
        stderr := "" }

/-- Downloader run whose output carries no marker line. -/
def execNoMarker : ExecFn := fun _ =>
  .ok { stdout := "[youtube] abc123: downloading\n", stderr := "" }

/-- An empty download directory. -/
def fsEmptyDir : FsEnv :=
  { mkdir := fun _ => .ok (), readdir := fun _ => [], statMtimeMs := fun _ => 0 }

/-- A download directory holding exactly one audio file. -/
def fsOneMp3 : FsEnv :=
  { mkdir := fun _ => .ok (), readdir := fun _ => ["song.mp3"],
    statMtimeMs := fun _ => 100 }

/-- A download directory holding two audio files (and a stray text file);
`newer.mp3` has the later modification time. -/
def fsTwoMp3 : FsEnv :=
  { mkdir := fun _ => .ok (),
    readdir := fun _ => ["older.mp3", "notes.txt", "newer.mp3"],
    statMtimeMs := fun p => if p = "/tmp/youtube-audio/newer.mp3" then 200 else 50 }

/-- The worked example of the spec: one well-formed upstream item. -/
def bohemianItem : YouTubeSearchResultItem :=
  { id := some { videoId := some "fJ9rUzIMcZQ" },
    snippet := some { title := some "Bohemian Rhapsody" } }

/-- Upstream API returning the single well-formed item. -/
def apiOneItem : UpstreamApi := fun _ =>
  .ok (some { items := some [bohemianItem] })

/-- Upstream API reporting zero matches. -/
def apiNoItems : UpstreamApi := fun _ => .ok (some { items := some [] })

/-- An upstream item lacking the video identifier. -/
def idlessItem : YouTubeSearchResultItem :=
  { id := none, snippet := some { title := some "Mystery Song" } }

/-- Upstream API whose top item lacks the video identifier. -/
def apiNoId : UpstreamApi := fun _ =>
  .ok (some { items := some [idlessItem] })

/-- Upstream API call that fails (transport error). -/
def apiDown : UpstreamApi := fun _ =>
  .error (JsError.jsPlainError "getaddrinfo ENOTFOUND www.googleapis.com")

/-- A downloader run that fails (non-zero exit of the external process). -/
def execFails : ExecFn := fun _ =>
  .error (JsError.jsPlainError "Command failed: yt-dlp exited with code 1")

/-- An upstream API answering the well-formed item only to requests with
`maxResults = 1`, and failing otherwise. -/
def apiOneItemMaxOne : UpstreamApi := fun r =>
  if r.maxResults = 1 then apiOneItem r else .error JsError.thrownValue

/-! ## Helper lemmas -/

/-- Appending the same prefix to different strings gives different strings. -/
theorem stringAppendRightNe (p a b : String) (h : a ≠ b) : p ++ a ≠ p ++ b := by
  intro heq
  exact h (String.ext (List.append_cancel_left
    (by rw [← String.data_append, ← String.data_append, heq])))

/-- Replacing single quotes leaves a quote-free character list unchanged. -/
theorem flatMapQuoteId (r : List Char) (l : List Char)
    (h : ∀ c ∈ l, c ≠ '\'') :
    (l.flatMap (fun c => if c = '\'' then r else [c])) = l := by
  induction l with
  | nil => rfl
  | cons c cs ih =>
    rw [List.flatMap_cons, if_neg (h c (by simp)),
      ih (fun x hx => h x (by simp [hx]))]
    rfl

/-- The macOS command contains the target URL verbatim whenever the URL has
no single-quote character. -/
theorem darwin_contains_url (url : String)
    (h : ∀ c ∈ url.data, c ≠ '\'') :
    ∃ pre post : List Char,
      (buildOpenCommand "darwin" url).data = pre ++ url.data ++ post := by
  refine ⟨"osascript -e '".data ++
      ("tell application \"Google Chrome\" to open location \"".data.flatMap
        (fun c => if c = '\'' then quoteReplacement.data else [c])),
    "\"".data.flatMap (fun c => if c = '\'' then quoteReplacement.data else [c]) ++
      "'".data, ?_⟩
  have hmid := flatMapQuoteId quoteReplacement.data url.data h
  simp only [buildOpenCommand, reduceIte, replaceQuotes, appleScriptFor,
    String.data_append, List.flatMap_append, hmid, List.append_assoc]

/-! ## The claims -/

/-- C1: the claim fails on the code of `src/tools/youtube.ts`.  Given
downloader output carrying the marker line
`[ExtractAudio] Destination: /tmp/youtube-audio/song.mp3`, that revision does
not return the path after the marker: `fileLine.split('Destination:')?.trim()`
(the `[1]` index access is missing on the line marked `// Corrected`) calls
`trim` on the array returned by `split`, and the resulting TypeError is
wrapped into a download-failure error — while the unnamed revision returns
exactly the trimmed path after the marker without consulting the fallback
(the directory listing is empty here, so the fallback could not have produced
this path). -/
theorem marker_line_parse_raises_typeerror :
    downloadYoutubeAudioT execMarkerOk fsEmptyDir "abc" none =
      .error (.mcpError .internalError
        "YouTube audio download failed: fileLine.split(...).trim is not a function") ∧
    downloadYoutubeAudio execMarkerOk fsEmptyDir "abc" none =
      .ok "/tmp/youtube-audio/song.mp3" := by
  exact ⟨by decide, by decide⟩

/-- C2: the claim fails on the code of `src/tools/youtube.ts`.  With a
non-empty candidate sequence whose first element is perfectly well formed
(id `fJ9rUzIMcZQ`, title `Bohemian Rhapsody`), that revision's `playTrack`
and `downloadTrack` do not use the first element: `const topResult =
searchResults` (lines marked `// Corrected`) binds the whole array, its `.id`
is undefined, and both handlers throw the resolution error — while the
unnamed revision's `downloadTrack` selects the first element and downloads
its audio. -/
theorem top_result_array_access_breaks_selection :
    downloadTrackT apiOneItem execMarkerOk fsEmptyDir "key" "Bohemian Rhapsody" =
      .error (.mcpError .internalError
        "Could not extract video ID from YouTube search result.") ∧
    playTrackT apiOneItem execMarkerOk fsEmptyDir "key" "Bohemian Rhapsody" =
      .error (.mcpError .internalError
        "Could not extract video ID from YouTube search result.") ∧
    downloadTrack apiOneItem execMarkerOk fsEmptyDir "key" "Bohemian Rhapsody" =
      .ok { content := [textContent "Downloaded audio: Bohemian Rhapsody",
                        textContent "File path: /tmp/youtube-audio/song.mp3"],
            isError := false } := by
  exact ⟨by decide, by decide, by decide⟩

/-- C3: the claim fails on the code of `src/tools/youtube.ts`.  With
marker-free downloader output and a directory holding one `.mp3` file, that
revision does not return the file's path: `path.join(dir, filesWithStats.file)`
(the `[0]` index access is missing on the line marked `// Corrected`) reads
`.file` of the array, which is undefined, and `path.join` raises a TypeError
that is wrapped into a download-failure error — while the unnamed revision
returns the single file's path, and with two `.mp3` files returns the most
recently modified one. -/
theorem fallback_scan_join_raises_typeerror :
    downloadYoutubeAudioT execNoMarker fsOneMp3 "abc" none =
      .error (.mcpError .internalError
        "YouTube audio download failed: The \"path\" argument must be of type string. Received undefined") ∧
    downloadYoutubeAudio execNoMarker fsOneMp3 "abc" none =
      .ok "/tmp/youtube-audio/song.mp3" ∧
    downloadYoutubeAudio execNoMarker fsTwoMp3 "abc" none =
      .ok "/tmp/youtube-audio/newer.mp3" := by
  exact ⟨by decide, by decide, by decide⟩

/-- C4: confirmed.  Given downloader output with no marker line and a target
directory holding no `.mp3` file, `downloadYoutubeAudio` fails with the
wrapped resolution error `Could not determine downloaded file path`; a
downloader process failure is instead wrapped around the process's own error
message, and the two surfaced messages differ whenever the process message is
not itself the resolution text — so callers can tell the two failure modes
apart. -/
theorem no_marker_no_mp3_resolution_error
    (exec : ExecFn) (fsE : FsEnv) (videoId : String) (outputDir : Option String)
    (out : ExecOut)
    (hmk : fsE.mkdir (resolvedOutputDir outputDir) = .ok ())
    (hexec : exec (ytDlpCommand (resolvedOutputDir outputDir) videoId) = .ok out)
    (hnomark : (jsSplit out.stdout "\n").find?
        (fun line => jsIncludes line extractionMarker) = none)
    (hnomp3 : (fsE.readdir (resolvedOutputDir outputDir)).filter
        (fun f => jsEndsWith f ".mp3") = []) :
    downloadYoutubeAudio exec fsE videoId outputDir =
      .error (.mcpError .internalError
        "YouTube audio download failed: Could not determine downloaded file path") ∧
    (∀ (exec2 : ExecFn) (e : JsError),
       exec2 (ytDlpCommand (resolvedOutputDir outputDir) videoId) = .error e →
       downloadYoutubeAudio exec2 fsE videoId outputDir =
         .error (.mcpError .internalError ("YouTube audio download failed: " ++
           messageOrDefault e "Unknown error during download"))) ∧
    (∀ m : String, m ≠ "Could not determine downloaded file path" →
       ("YouTube audio download failed: Could not determine downloaded file path" : String) ≠
         "YouTube audio download failed: " ++ m) := by
  refine ⟨?_, ?_, ?_⟩
  · simp only [downloadYoutubeAudio, hmk, hexec, hnomark, hnomp3, jsFalsyOptStr,
      wrapDownloadError, messageOrDefault, if_true]
    decide
  · intro exec2 e h2
    simp only [downloadYoutubeAudio, hmk, h2, wrapDownloadError]
  · intro m hm
    have hlit : ("YouTube audio download failed: Could not determine downloaded file path" : String) =
        "YouTube audio download failed: " ++ "Could not determine downloaded file path" := by
      decide
    rw [hlit]
    exact stringAppendRightNe "YouTube audio download failed: "
      "Could not determine downloaded file path" m (fun h => hm h.symm)

/-- Witness for C4 at a concrete environment. -/
theorem no_marker_no_mp3_resolution_error_witness :
    downloadYoutubeAudio execNoMarker fsEmptyDir "abc" none =
      .error (.mcpError .internalError
        "YouTube audio download failed: Could not determine downloaded file path") :=
  (no_marker_no_mp3_resolution_error execNoMarker fsEmptyDir "abc" none
    { stdout := "[youtube] abc123: downloading\n", stderr := "" }
    (by decide) (by decide) (by decide) (by decide)).1

/-- C5 counterexample: the claim is false at a concrete input.  When the
upstream search call fails (a `SearchError`, wrapped as
`McpError(InternalError, 'YouTube API search failed: ...')`), `playTrack` and
`downloadTrack` do not return a soft tool-response: their catch blocks
re-throw every `McpError` with code `InternalError`, so the error is thrown
past the facade.  The same happens for a downloader process failure
(`ProcessError`, wrapped as `YouTube audio download failed: ...`). -/
theorem search_error_thrown_past_facade :
    playTrack apiDown execNoMarker "linux" "key" "Bohemian Rhapsody" =
      .error (.mcpError .internalError
        "YouTube API search failed: getaddrinfo ENOTFOUND www.googleapis.com") ∧
    downloadTrack apiDown execNoMarker fsEmptyDir "key" "Bohemian Rhapsody" =
      .error (.mcpError .internalError
        "YouTube API search failed: getaddrinfo ENOTFOUND www.googleapis.com") ∧
    downloadTrack apiOneItem execFails fsEmptyDir "key" "Bohemian Rhapsody" =
      .error (.mcpError .internalError
        "YouTube audio download failed: Command failed: yt-dlp exited with code 1") ∧
    (∀ r : ToolResponse,
       playTrack apiDown execNoMarker "linux" "key" "Bohemian Rhapsody" ≠ .ok r) := by
  refine ⟨by decide, by decide, by decide, ?_⟩
  intro r h
  have h1 : playTrack apiDown execNoMarker "linux" "key" "Bohemian Rhapsody" =
      .error (.mcpError .internalError
        "YouTube API search failed: getaddrinfo ENOTFOUND www.googleapis.com") := by
    decide
  rw [h1] at h
  exact Except.noConfusion h

/-- C5 as amended: a `SearchError` is surfaced as a soft error response by
`searchTrack` only; in `playTrack` and `downloadTrack` both a `SearchError`
and a downloader `ProcessError` are re-raised past the facade, because they
are wrapped as `McpError(InternalError)` and the facade's catch re-throws
every such error. -/
theorem facade_error_propagation
    (api : UpstreamApi) (exec : ExecFn) (fsE : FsEnv)
    (platform apiKey trackName : String) (e : JsError)
    (h5 : api { key := apiKey, part := "snippet", maxResults := 5,
                type := "video", q := trackName } = .error e)
    (h1 : api { key := apiKey, part := "snippet", maxResults := 1,
                type := "video", q := trackName } = .error e) :
    searchTrack api apiKey trackName =
      .ok { content := [textContent ("Error searching YouTube: " ++
              ("YouTube API search failed: " ++
                messageOrDefault e "An unknown error occurred during YouTube search"))],
            isError := true } ∧
    playTrack api exec platform apiKey trackName =
      .error (.mcpError .internalError ("YouTube API search failed: " ++
        messageOrDefault e "An unknown error occurred during YouTube search")) ∧
    downloadTrack api exec fsE apiKey trackName =
      .error (.mcpError .internalError ("YouTube API search failed: " ++
        messageOrDefault e "An unknown error occurred during YouTube search")) ∧
    (∀ (api2 : UpstreamApi) (exec2 : ExecFn) (it : YouTubeSearchResultItem)
       (pe : JsError),
       api2 { key := apiKey, part := "snippet", maxResults := 1,
              type := "video", q := trackName } =
         .ok (some { items := some [it] }) →
       jsFalsyOptStr (itemVideoId it) = false →
       fsE.mkdir (resolvedOutputDir none) = .ok () →
       exec2 (ytDlpCommand (resolvedOutputDir none) ((itemVideoId it).getD "")) =
         .error pe →
       downloadTrack api2 exec2 fsE apiKey trackName =
         .error (.mcpError .internalError ("YouTube audio download failed: " ++
           messageOrDefault pe "Unknown error during download"))) := by
  refine ⟨?_, ?_, ?_, ?_⟩
  · simp only [searchTrack, searchYoutubeVideo, h5, isMcpError, messageOrDefault,
      if_true]
  · simp only [playTrack, searchYoutubeVideo, h1, facadeCatch, if_true]
  · simp only [downloadTrack, searchYoutubeVideo, h1, facadeCatch, if_true]
  · intro api2 exec2 it pe ha hid hmk hex
    simp only [downloadTrack, searchYoutubeVideo, ha, Option.some_bind,
      Option.getD_some, hid, downloadYoutubeAudio, hmk, hex, wrapDownloadError,
      facadeCatch, Bool.false_eq_true, if_false, if_true]

/-- Witness for C5 as amended, at a concrete failing API and a concrete
failing downloader process. -/
theorem facade_error_propagation_witness :
    searchTrack apiDown "key" "Bohemian Rhapsody" =
      .ok { content := [textContent ("Error searching YouTube: " ++
              ("YouTube API search failed: " ++
                messageOrDefault (JsError.jsPlainError "getaddrinfo ENOTFOUND www.googleapis.com")
                  "An unknown error occurred during YouTube search"))],
            isError := true } ∧
    downloadTrack apiOneItem execFails fsEmptyDir "key" "Bohemian Rhapsody" =
      .error (.mcpError .internalError ("YouTube audio download failed: " ++
        messageOrDefault (JsError.jsPlainError "Command failed: yt-dlp exited with code 1")
          "Unknown error during download")) :=
  ⟨(facade_error_propagation apiDown execNoMarker fsEmptyDir "linux" "key"
      "Bohemian Rhapsody" (JsError.jsPlainError "getaddrinfo ENOTFOUND www.googleapis.com")
      (by decide) (by decide)).1,
   (facade_error_propagation apiDown execNoMarker fsEmptyDir "linux" "key"
      "Bohemian Rhapsody"
      (JsError.jsPlainError "getaddrinfo ENOTFOUND www.googleapis.com")
      (by decide) (by decide)
      |>.2.2.2) apiOneItem execFails bohemianItem
      (JsError.jsPlainError "Command failed: yt-dlp exited with code 1")
      (by decide) (by decide) (by decide) (by decide)⟩

/-- C6: confirmed.  Whenever the top item of the upstream result lacks a
usable video identifier (absent `id`, absent `videoId`, or an empty string —
the code's falsiness test), both `playTrack` and `downloadTrack` throw the
resolution `McpError(InternalError, 'Could not extract video ID from YouTube
search result.')`, which the facade's catch re-raises as a hard error rather
than downgrading to a soft response — so no handler ever returns a response
built from a silently empty path. -/
theorem missing_video_id_hard_error
    (api : UpstreamApi) (exec : ExecFn) (fsE : FsEnv)
    (platform apiKey trackName : String)
    (top : YouTubeSearchResultItem) (rest : List YouTubeSearchResultItem)
    (h1 : api { key := apiKey, part := "snippet", maxResults := 1,
                type := "video", q := trackName } =
      .ok (some { items := some (top :: rest) }))
    (hid : jsFalsyOptStr (itemVideoId top) = true) :
    playTrack api exec platform apiKey trackName =
      .error (.mcpError .internalError
        "Could not extract video ID from YouTube search result.") ∧
    downloadTrack api exec fsE apiKey trackName =
      .error (.mcpError .internalError
        "Could not extract video ID from YouTube search result.") := by
  constructor
  · simp only [playTrack, searchYoutubeVideo, h1, Option.some_bind,
      Option.getD_some, hid, facadeCatch, if_true]
  · simp only [downloadTrack, searchYoutubeVideo, h1, Option.some_bind,
      Option.getD_some, hid, facadeCatch, if_true]

/-- Witness for C6 at a concrete API whose top item has no `id` object. -/
theorem missing_video_id_hard_error_witness :
    playTrack apiNoId execNoMarker "linux" "key" "Mystery Song" =
      .error (.mcpError .internalError
        "Could not extract video ID from YouTube search result.") ∧
    downloadTrack apiNoId execNoMarker fsEmptyDir "key" "Mystery Song" =
      .error (.mcpError .internalError
        "Could not extract video ID from YouTube search result.") :=
  missing_video_id_hard_error apiNoId execNoMarker fsEmptyDir "linux" "key"
    "Mystery Song" idlessItem [] (by decide) (by decide)

/-- C7 counterexample: the claim is false at a concrete input.  On zero
upstream matches, `searchTrack` does not render a "no results" message: it
returns the JSON serialization of the empty list, the two-character text
`[]` (with no error flag), which does not contain the `No search results`
phrasing the other handlers use. -/
theorem searchTrack_empty_renders_json_list :
    searchTrack apiNoItems "key" "some obscure query" =
      .ok { content := [textContent "[]"], isError := false } ∧
    jsIncludes "[]" "No search results" = false ∧
    playTrack apiNoItems execNoMarker "linux" "key" "some obscure query" =
      .ok (noResultsResponse "some obscure query") := by
  exact ⟨by decide, by decide, by decide⟩

/-- C7 as amended: on zero upstream matches the search operation returns an
empty sequence (not an error); `playTrack` and `downloadTrack` return the
`No search results found for: ...` message with no error flag; `searchTrack`
returns the serialized empty list `[]` with no error flag (not a prose
"no results" message). -/
theorem zero_results_soft_outcome
    (api : UpstreamApi) (exec : ExecFn) (fsE : FsEnv)
    (platform apiKey trackName : String)
    (r5 r1 : Option YouTubeSearchResults)
    (h5 : api { key := apiKey, part := "snippet", maxResults := 5,
                type := "video", q := trackName } = .ok r5)
    (h5n : (r5.bind (fun x => x.items)).getD [] = [])
    (h1 : api { key := apiKey, part := "snippet", maxResults := 1,
                type := "video", q := trackName } = .ok r1)
    (h1n : (r1.bind (fun x => x.items)).getD [] = []) :
    searchYoutubeVideo api apiKey trackName 5 = .ok [] ∧
    searchYoutubeVideo api apiKey trackName 1 = .ok [] ∧
    searchTrack api apiKey trackName =
      .ok { content := [textContent "[]"], isError := false } ∧
    playTrack api exec platform apiKey trackName =
      .ok (noResultsResponse trackName) ∧
    downloadTrack api exec fsE apiKey trackName =
      .ok (noResultsResponse trackName) := by
  refine ⟨?_, ?_, ?_, ?_, ?_⟩
  · simp only [searchYoutubeVideo, h5, h5n]
  · simp only [searchYoutubeVideo, h1, h1n]
  · simp only [searchTrack, searchYoutubeVideo, h5, h5n, jsonStringifyItems]
  · simp only [playTrack, searchYoutubeVideo, h1, h1n]
  · simp only [downloadTrack, searchYoutubeVideo, h1, h1n]

/-- Witness for C7 as amended, at a concrete API reporting zero matches. -/
theorem zero_results_soft_outcome_witness :
    searchTrack apiNoItems "key" "nothing here" =
      .ok { content := [textContent "[]"], isError := false } ∧
    downloadTrack apiNoItems execNoMarker fsEmptyDir "key" "nothing here" =
      .ok (noResultsResponse "nothing here") :=
  ⟨(zero_results_soft_outcome apiNoItems execNoMarker fsEmptyDir "linux" "key"
      "nothing here" (some { items := some [] }) (some { items := some [] })
      (by decide) (by decide) (by decide) (by decide)).2.2.1,
   (zero_results_soft_outcome apiNoItems execNoMarker fsEmptyDir "linux" "key"
      "nothing here" (some { items := some [] }) (some { items := some [] })
      (by decide) (by decide) (by decide) (by decide)).2.2.2.2⟩

/-- C8: the claim fails on the code.  The replacement in
`appleScript.replace(/'/g, "'\''")` denotes the three characters `'''` (the
backslash is consumed by the JavaScript string literal), not the POSIX escape
idiom `'\''`: a single quote in the URL is therefore not escaped — the first
replacement quote terminates the surrounding single-quoted argument, and the
built command is left with unbalanced quoting, while the command built with
the spec's mandated escaping stays balanced (as does the built command for a
quote-free URL). -/
theorem darwin_quote_escaping_unbalanced :
    replaceQuotes quoteReplacement "a'b" = "a'''b" ∧
    shellQuotesBalanced
      (buildOpenCommand "darwin" "https://music.youtube.com/watch?v=a'b") = false ∧
    shellQuotesBalanced
      (specDarwinCommand "https://music.youtube.com/watch?v=a'b") = true ∧
    shellQuotesBalanced
      (buildOpenCommand "darwin" "https://music.youtube.com/watch?v=abc") = true := by
  exact ⟨by decide, by decide, by decide, by decide⟩

/-- C9 counterexample: the claim is false at a concrete input.  For the
macOS platform and a URL containing a single quote, the built command does
not contain the exact target URL (the quote is rewritten by the escaping
step), while the Windows command for the same URL does. -/
theorem darwin_command_lacks_exact_url :
    jsIncludes (buildOpenCommand "darwin" "https://music.youtube.com/watch?v=a'b")
      "https://music.youtube.com/watch?v=a'b" = false ∧
    jsIncludes (buildOpenCommand "win32" "https://music.youtube.com/watch?v=a'b")
      "https://music.youtube.com/watch?v=a'b" = true := by
  exact ⟨by decide, by decide⟩

/-- C9 as amended: for every URL and platform exactly one of the three
command variants is built — the scripted `osascript` invocation on `darwin`,
the native `start` invocation on `win32`, the generic `xdg-open` invocation
otherwise.  The Windows and POSIX variants contain the exact target URL by
construction; the macOS variant contains it whenever the URL has no
single-quote character (single quotes are rewritten by the escaping step). -/
theorem platform_command_selection (url platform : String) :
    (platform = "darwin" →
      buildOpenCommand platform url =
        "osascript -e '" ++
          replaceQuotes quoteReplacement (appleScriptFor url) ++ "'" ∧
      ((∀ c ∈ url.data, c ≠ '\'') →
        ∃ pre post : List Char,
          (buildOpenCommand platform url).data = pre ++ url.data ++ post)) ∧
    (platform = "win32" →
      buildOpenCommand platform url = "start \"\" \"" ++ url ++ "\"") ∧
    (platform ≠ "darwin" → platform ≠ "win32" →
      buildOpenCommand platform url = "xdg-open \"" ++ url ++ "\"") := by
  refine ⟨?_, ?_, ?_⟩
  · intro hp
    subst hp
    exact ⟨by simp [buildOpenCommand], darwin_contains_url url⟩
  · intro hp
    subst hp
    simp [buildOpenCommand]
  · intro hd hw
    simp [buildOpenCommand, hd, hw]

/-- Witness for C9 as amended: the Windows command for a concrete URL, and
the macOS command's verbatim containment of a concrete quote-free URL. -/
theorem platform_command_selection_witness :
    buildOpenCommand "win32" "https://music.youtube.com/watch?v=fJ9rUzIMcZQ" =
      "start \"\" \"" ++ "https://music.youtube.com/watch?v=fJ9rUzIMcZQ" ++ "\"" ∧
    ∃ pre post : List Char,
      (buildOpenCommand "darwin" "https://music.youtube.com/watch?v=fJ9rUzIMcZQ").data =
        pre ++ ("https://music.youtube.com/watch?v=fJ9rUzIMcZQ" : String).data ++ post :=
  ⟨(platform_command_selection "https://music.youtube.com/watch?v=fJ9rUzIMcZQ"
      "win32").2.1 rfl,
   ((platform_command_selection "https://music.youtube.com/watch?v=fJ9rUzIMcZQ"
      "darwin").1 rfl).2 (by decide)⟩

/-- C10: confirmed.  `searchTrack` issues its upstream request with
`maxResults = 5`, while `playTrack` and `downloadTrack` issue theirs with
`maxResults = 1`: each handler's outcome depends on the upstream API only
through its answer to that one request.  Moreover `playTrack` and
`downloadTrack` read at most the first element of the returned candidate
sequence: two successful answers with equal first elements give identical
outcomes. -/
theorem handlers_request_discipline :
    (∀ (api api2 : UpstreamApi) (apiKey trackName : String),
       api { key := apiKey, part := "snippet", maxResults := 5,
             type := "video", q := trackName } =
         api2 { key := apiKey, part := "snippet", maxResults := 5,
                type := "video", q := trackName } →
       searchTrack api apiKey trackName = searchTrack api2 apiKey trackName) ∧
    (∀ (api api2 : UpstreamApi) (exec : ExecFn) (fsE : FsEnv)
       (platform apiKey trackName : String),
       api { key := apiKey, part := "snippet", maxResults := 1,
             type := "video", q := trackName } =
         api2 { key := apiKey, part := "snippet", maxResults := 1,
                type := "video", q := trackName } →
       playTrack api exec platform apiKey trackName =
         playTrack api2 exec platform apiKey trackName ∧
       downloadTrack api exec fsE apiKey trackName =
         downloadTrack api2 exec fsE apiKey trackName) ∧
    (∀ (api api2 : UpstreamApi) (exec : ExecFn) (fsE : FsEnv)
       (platform apiKey trackName : String) (r r2 : Option YouTubeSearchResults),
       api { key := apiKey, part := "snippet", maxResults := 1,
             type := "video", q := trackName } = .ok r →
       api2 { key := apiKey, part := "snippet", maxResults := 1,
              type := "video", q := trackName } = .ok r2 →
       ((r.bind (fun x => x.items)).getD []).head? =
         ((r2.bind (fun x => x.items)).getD []).head? →
       playTrack api exec platform apiKey trackName =
         playTrack api2 exec platform apiKey trackName ∧
       downloadTrack api exec fsE apiKey trackName =
         downloadTrack api2 exec fsE apiKey trackName) := by
  refine ⟨?_, ?_, ?_⟩
  · intro api api2 apiKey trackName h
    simp only [searchTrack, searchYoutubeVideo, h]
  · intro api api2 exec fsE platform apiKey trackName h
    constructor
    · simp only [playTrack, searchYoutubeVideo, h]
    · simp only [downloadTrack, searchYoutubeVideo, h]
  · intro api api2 exec fsE platform apiKey trackName r r2 h1 h2 hh
    constructor
    · simp only [playTrack, searchYoutubeVideo, h1, h2]
      revert hh
      generalize (r.bind (fun x => x.items)).getD [] = l
      generalize (r2.bind (fun x => x.items)).getD [] = l2
      intro hh
      cases l with
      | nil =>
        cases l2 with
        | nil => rfl
        | cons b bs => exact absurd hh (by simp)
      | cons a as =>
        cases l2 with
        | nil => exact absurd hh (by simp)
        | cons b bs =>
          simp only [List.head?] at hh
          injection hh with hab
          subst hab
          rfl
    · simp only [downloadTrack, searchYoutubeVideo, h1, h2]
      revert hh
      generalize (r.bind (fun x => x.items)).getD [] = l
      generalize (r2.bind (fun x => x.items)).getD [] = l2
      intro hh
      cases l with
      | nil =>
        cases l2 with
        | nil => rfl
        | cons b bs => exact absurd hh (by simp)
      | cons a as =>
        cases l2 with
        | nil => exact absurd hh (by simp)
        | cons b bs =>
          simp only [List.head?] at hh
          injection hh with hab
          subst hab
          rfl

/-- Witness for C10: an API failing on every request except the `maxResults
= 1` one drives `playTrack` and `downloadTrack` exactly as the original API,
applied at concrete inputs. -/
theorem handlers_request_discipline_witness :
    playTrack apiOneItem execMarkerOk "linux" "key" "Bohemian Rhapsody" =
      playTrack apiOneItemMaxOne execMarkerOk "linux" "key" "Bohemian Rhapsody" ∧
    downloadTrack apiOneItem execMarkerOk fsEmptyDir "key" "Bohemian Rhapsody" =
      downloadTrack apiOneItemMaxOne execMarkerOk fsEmptyDir "key" "Bohemian Rhapsody" ∧
    searchTrack apiNoItems "key" "x" = searchTrack apiNoItems "key" "x" :=
  ⟨(handlers_request_discipline.2.1 apiOneItem apiOneItemMaxOne execMarkerOk
      fsEmptyDir "linux" "key" "Bohemian Rhapsody" (by decide)).1,
   (handlers_request_discipline.2.1 apiOneItem apiOneItemMaxOne execMarkerOk
      fsEmptyDir "linux" "key" "Bohemian Rhapsody" (by decide)).2,
   handlers_request_discipline.1 apiNoItems apiNoItems "key" "x" rfl⟩

end YtMusic
